import Mathlib

/-!
Shallow embedding of the e-commerce backend's business logic
(`app/modules/orders/service.py`, `app/modules/orders/sheets_sync.py`,
`app/modules/products/service.py`, `app/infrastructure/db/repository.py`,
`app/infrastructure/db/models.py`).

The database session is modelled as explicit state (`DB`, lists of rows);
Python exceptions are modelled with `Except`; Python `int` is `Int`.
Python string primitives `.strip()`, `.upper()`, `s[:n]` are modelled by
executable character-level functions `pyStrip`, `pyUpper`, `pyTake`.
Primary keys (`Product.id`, `Order.id`) are unique in the database; dict
lookups built over fetched rows are therefore modelled with `List.find?`.
-/

/-- Python `str.strip()`: drop leading and trailing whitespace characters. -/
def pyStrip (s : String) : String :=
  ⟨((s.data.dropWhile Char.isWhitespace).reverse.dropWhile Char.isWhitespace).reverse⟩

/-- Python `str.upper()` (ASCII letters, which is all the code compares). -/
def pyUpper (s : String) : String := ⟨s.data.map Char.toUpper⟩

/-- Python slice `s[:n]`: the first `n` characters. -/
def pyTake (s : String) (n : Nat) : String := ⟨s.data.take n⟩

/-- Python truthiness check `if s:` / `not s` for strings: `False` iff empty. -/
def pyTruthy (s : String) : Bool := !s.isEmpty

/-- Substring test at the character level: `needle` occurs inside `hay`.
Models SQL `ILIKE '%needle%'` after both sides are lower-cased. -/
def isInfixB (needle : List Char) : List Char → Bool
  | [] => needle.isEmpty
  | c :: t => needle.isPrefixOf (c :: t) || isInfixB needle t

/-- Python `str.lower()` (ASCII letters). -/
def pyLower (s : String) : String := ⟨s.data.map Char.toLower⟩

/-! ## Data model (`app/infrastructure/db/models.py`) -/

/-- Row of `product_images` (url + ordering position). -/
structure ProductImage where
  url : String
  position : Nat
deriving Repr, DecidableEq

/-- Row of `products`. `created_at` is an abstract timestamp; `deleted_at`
is the soft-delete marker. -/
structure Product where
  id : Int
  slug : String
  name : String
  description : Option String
  price : Int
  category : String
  quantity : Int
  thumbnail_url : String
  is_active : Bool
  images : List ProductImage
  created_at : Nat
  deleted_at : Option Nat
deriving Repr, DecidableEq

/-- Row of `order_items`: snapshot of the product at purchase time. -/
structure OrderItem where
  order_id : Int
  product_id : Int
  product_slug : String
  product_name : String
  unit_price : Int
  quantity : Int
  line_total : Int
deriving Repr, DecidableEq

/-- Row of `orders`, with its items attached (the `items` relationship). -/
structure Order where
  id : Int
  status : String
  first_name : String
  last_name : String
  phone_number : String
  wilaya : String
  baladiya : String
  delivery_mode : String
  address_line : Option String
  items_subtotal : Int
  delivery_fee : Int
  total_amount : Int
  sheets_status : String
  sheets_synced_at : Option Nat
  sheets_error : Option String
  items : List OrderItem
deriving Repr, DecidableEq

/-- The relational store visible to the services. -/
structure DB where
  products : List Product
  orders : List Order
deriving Repr, DecidableEq

/-! ## Error taxonomy (`app/core/exceptions.py`), with the structured
details each error carries. -/

/-- One entry of `InsufficientStock.details.items`. -/
structure Shortfall where
  product_id : Int
  requested : Int
  available : Int
deriving Repr, DecidableEq

inductive OrderError where
  | invalidPayload (field : String)
  | productUnavailable (missing_product_ids : List Int)
  | insufficientStock (items : List Shortfall)
  | orderNotFound
  | invalidTransition (fromStatus toStatus : String)
deriving Repr, DecidableEq

/-! ## Orders service (`app/modules/orders/service.py`) -/

def ALLOWED_DELIVERY_MODES : List String := ["HOME", "STOP_DESK"]

def ALLOWED_ORDER_STATUSES : List String :=
  ["PENDING", "CONFIRMED", "DELIVERED", "CANCELED"]

structure CreateOrderItemIn where
  product_id : Int
  quantity : Int
deriving Repr, DecidableEq

structure CreateOrderIn where
  first_name : String
  last_name : String
  phone_number : String
  wilaya : String
  baladiya : String
  delivery_mode : String
  address_line : Option String
  delivery_fee : Int
  items : List CreateOrderItemIn
deriving Repr, DecidableEq

/-- Per-item checks of `_validate_create_payload` (the final `for it in
payload.items` loop): the first offending item raises. -/
def validateItems : List CreateOrderItemIn → Except OrderError Unit
  | [] => .ok ()
  | it :: rest =>
    if it.product_id ≤ 0 then .error (.invalidPayload "product_id")
    else if it.quantity ≤ 0 then .error (.invalidPayload "quantity")
    else validateItems rest

/-- The `required_str_fields` dict, in its (insertion-ordered) iteration
order. -/
def requiredStrFields (p : CreateOrderIn) : List (String × String) :=
  [("first_name", p.first_name), ("last_name", p.last_name),
   ("phone_number", p.phone_number), ("wilaya", p.wilaya),
   ("baladiya", p.baladiya)]

/-- `if not v or not v.strip(): raise` over the required string fields. -/
def validateRequiredStrs : List (String × String) → Except OrderError Unit
  | [] => .ok ()
  | (k, v) :: rest =>
    if !pyTruthy v || !pyTruthy (pyStrip v) then .error (.invalidPayload k)
    else validateRequiredStrs rest

/-- `OrdersService._validate_create_payload`, check order preserved. -/
def validate_create_payload (p : CreateOrderIn) : Except OrderError Unit :=
  if p.items.isEmpty then .error (.invalidPayload "items")
  else if p.delivery_fee < 0 then .error (.invalidPayload "delivery_fee")
  else if !ALLOWED_DELIVERY_MODES.contains (pyUpper (pyStrip p.delivery_mode)) then
    .error (.invalidPayload "delivery_mode")
  else
    match validateRequiredStrs (requiredStrFields p) with
    | .error e => .error e
    | .ok () => validateItems p.items

/-- Add `qty` for key `pid` into an insertion-ordered association list —
one step of building the `requested_qty_by_pid` dict. -/
def addQty : List (Int × Int) → Int → Int → List (Int × Int)
  | [], pid, qty => [(pid, qty)]
  | (p, q) :: rest, pid, qty =>
    if p = pid then (p, q + qty) :: rest else (p, q) :: addQty rest pid qty

/-- `requested_qty_by_pid`: merge duplicate product ids, summing quantities,
preserving first-occurrence order (Python dicts iterate in insertion
order). -/
def mergeItems (items : List CreateOrderItemIn) : List (Int × Int) :=
  items.foldl (fun acc it => addQty acc it.product_id it.quantity) []

/-- `OrdersRepository.get_active_products_by_ids`: purchasable products
(active + not soft-deleted) among the requested ids. -/
def get_active_products_by_ids (products : List Product) (ids : List Int) :
    List Product :=
  if ids.isEmpty then []
  else products.filter fun p =>
    ids.contains p.id && p.is_active && p.deleted_at == none

/-- Lookup in the `products_by_id` dict (ids are a primary key, hence
unique, so first match = the dict entry). -/
def findProduct (products : List Product) (pid : Int) : Option Product :=
  products.find? (fun p => p.id == pid)

/-- The `product_ids` local of `create_order`: ids of the merged request,
in first-occurrence order. -/
def requestedIds (items : List CreateOrderItemIn) : List Int :=
  (mergeItems items).map (fun pq => pq.1)

/-- The `products` local of `create_order`: the purchasable rows fetched
for the requested ids. -/
def fetchedProducts (products : List Product) (items : List CreateOrderItemIn) :
    List Product :=
  get_active_products_by_ids products (requestedIds items)

/-- The `missing` local of `create_order`: every requested id with no
purchasable row. -/
def missingIds (products : List Product) (items : List CreateOrderItemIn) :
    List Int :=
  (requestedIds items).filter fun pid =>
    (findProduct (fetchedProducts products items) pid).isNone

/-- The stock-validation loop: collect ALL shortfalls over the merged
request (never reached with a pid absent from `products_by_id`, because
the missing-products check raised first). -/
def shortfalls (merged : List (Int × Int)) (fetched : List Product) :
    List Shortfall :=
  merged.filterMap fun pq =>
    match findProduct fetched pq.1 with
    | some p =>
        if p.quantity < pq.2 then some ⟨pq.1, pq.2, p.quantity⟩ else none
    | none => none

/-- The `insufficient` local of `create_order`. -/
def shortfallsOf (products : List Product) (items : List CreateOrderItemIn) :
    List Shortfall :=
  shortfalls (mergeItems items) (fetchedProducts products items)

/-- The snapshot-building loop over `requested_qty_by_pid.items()`
(`order_id` is patched in after the order row is flushed). -/
def snapshotItems (merged : List (Int × Int)) (fetched : List Product) :
    List OrderItem :=
  merged.filterMap fun pq =>
    (findProduct fetched pq.1).map fun p =>
      { order_id := 0
        product_id := p.id
        product_slug := p.slug
        product_name := p.name
        unit_price := p.price
        quantity := pq.2
        line_total := p.price * pq.2 }

/-- The stock-decrement loop: `products_by_id[pid].quantity -= qty` for each
merged item. A row is in `products_by_id` iff it is active, not deleted and
its id was requested. -/
def decrementStock (products : List Product) (merged : List (Int × Int)) :
    List Product :=
  products.map fun p =>
    if p.is_active && p.deleted_at == none then
      match merged.find? (fun pq => pq.1 == p.id) with
      | some pq => { p with quantity := p.quantity - pq.2 }
      | none => p
    else p

/-- Autoincrement primary key for a fresh `orders` row. -/
def nextOrderId (orders : List Order) : Int :=
  (orders.map (fun o => o.id)).foldl max 0 + 1

/-- `payload.address_line.strip() if payload.address_line else None`. -/
def normalizeAddressLine : Option String → Option String
  | none => none
  | some s => if pyTruthy s then some (pyStrip s) else none

/-- `OrdersService.create_order`. On any raised error the transaction is
rolled back, which in this pure embedding means the caller keeps the prior
`DB` (see `run_create_order`). -/
def create_order (db : DB) (payload : CreateOrderIn) :
    Except OrderError (DB × Order) :=
  match validate_create_payload payload with
  | .error e => .error e
  | .ok () =>
    let merged := mergeItems payload.items
    let fetched := fetchedProducts db.products payload.items
    let missing := missingIds db.products payload.items
    if !missing.isEmpty then .error (.productUnavailable missing)
    else
      let insufficient := shortfallsOf db.products payload.items
      if !insufficient.isEmpty then .error (.insufficientStock insufficient)
      else
        let items0 := snapshotItems merged fetched
        let items_subtotal := (items0.map (fun it => it.line_total)).sum
        let total_amount := items_subtotal + payload.delivery_fee
        let oid := nextOrderId db.orders
        let order : Order :=
          { id := oid
            status := "PENDING"
            first_name := pyStrip payload.first_name
            last_name := pyStrip payload.last_name
            phone_number := pyStrip payload.phone_number
            wilaya := pyStrip payload.wilaya
            baladiya := pyStrip payload.baladiya
            delivery_mode := pyUpper (pyStrip payload.delivery_mode)
            address_line := normalizeAddressLine payload.address_line
            items_subtotal := items_subtotal
            delivery_fee := payload.delivery_fee
            total_amount := total_amount
            sheets_status := "PENDING"
            sheets_synced_at := none
            sheets_error := none
            items := items0.map fun it => { it with order_id := oid } }
        let products' := decrementStock db.products merged
        .ok ({ products := products', orders := db.orders ++ [order] }, order)

/-- The commit/rollback boundary seen by the caller: on success the new
state is committed, on any exception the session is rolled back and the
prior state persists. -/
def run_create_order (db : DB) (payload : CreateOrderIn) : DB × Option Order :=
  match create_order db payload with
  | .ok r => (r.1, some r.2)
  | .error _ => (db, none)

/-- Lookup an order by primary key (`OrdersRepository.get_order_by_id`). -/
def findOrder (orders : List Order) (oid : Int) : Option Order :=
  orders.find? (fun o => o.id == oid)

/-- The `allowed` transition table of `set_order_status`
(`allowed.get(old, set())` defaults to the empty set). -/
def allowedNext : String → List String
  | "PENDING" => ["CONFIRMED", "CANCELED"]
  | "CONFIRMED" => ["DELIVERED", "CANCELED"]
  | _ => []

/-- `OrdersService._restore_stock_for_order`: for each order item, add the
item quantity back onto the referenced product row. The lookup is a plain
`Product.id IN (...)` query with NO active/soft-delete filter; items whose
product row no longer exists are skipped. Rows are keyed by primary key, so
the per-item mutation is a map over the product list. -/
def restore_stock_for_order (products : List Product) (items : List OrderItem) :
    List Product :=
  items.foldl
    (fun ps it =>
      ps.map fun p =>
        if p.id == it.product_id then { p with quantity := p.quantity + it.quantity }
        else p)
    products

/-- `OrdersService.set_order_status`. Restore-on-cancel and the status write
share one commit/rollback boundary, so both land in the returned `DB`. -/
def set_order_status (db : DB) (order_id : Int) (new_status : String) :
    Except OrderError (DB × Order) :=
  let ns := pyUpper (pyStrip new_status)
  if !ALLOWED_ORDER_STATUSES.contains ns then .error (.invalidPayload "status")
  else
    match findOrder db.orders order_id with
    | none => .error .orderNotFound
    | some order =>
      let old := pyUpper (pyStrip order.status)
      if old == ns then .ok (db, order)
      else if !(allowedNext old).contains ns then
        .error (.invalidTransition old ns)
      else
        let products' :=
          if ns == "CANCELED" then restore_stock_for_order db.products order.items
          else db.products
        let order' := { order with status := ns }
        let orders' :=
          db.orders.map fun o => if o.id == order.id then { o with status := ns } else o
        .ok ({ products := products', orders := orders' }, order')

/-! ## Sheets sync (`app/modules/orders/sheets_sync.py`,
`OrdersRepository.set_sheets_sync_result`) -/

/-- Outcome of the external spreadsheet interaction: client construction
failed, the append failed, or the append succeeded. The carried string is
Python's `str(e)` for the raised exception. -/
inductive SheetsOutcome where
  | clientError (msg : String)
  | appendError (msg : String)
  | ok
deriving Repr, DecidableEq

/-- `OrdersRepository.set_sheets_sync_result`: write the sync result onto
the order row. `(error or "Unknown sheets error")[:500]`. -/
def set_sheets_sync_result (order : Order) (status : String)
    (error : Option String) (now : Nat) : Order :=
  if status == "SUCCESS" then
    { order with sheets_status := status, sheets_synced_at := some now,
                 sheets_error := none }
  else if status == "FAILED" then
    { order with sheets_status := status, sheets_synced_at := none,
                 sheets_error := some (pyTake
                   (match error with
                    | some s => if pyTruthy s then s else "Unknown sheets error"
                    | none => "Unknown sheets error") 500) }
  else
    { order with sheets_status := status, sheets_synced_at := none,
                 sheets_error := none }

/-- `try_sync_order_to_sheets`: load the order (no-op when absent); the
whole client-construction + row-append sequence sits in one `try`, and the
blanket `except` writes FAILED with `str(e)`; the success path writes
SUCCESS. Modelled as a total state transformer: no raise ever escapes. -/
def try_sync_order_to_sheets (orders : List Order) (order_id : Int)
    (outcome : SheetsOutcome) (now : Nat) : List Order :=
  match findOrder orders order_id with
  | none => orders
  | some order =>
    let updated :=
      match outcome with
      | .ok => set_sheets_sync_result order "SUCCESS" none now
      | .clientError msg => set_sheets_sync_result order "FAILED" (some msg) now
      | .appendError msg => set_sheets_sync_result order "FAILED" (some msg) now
    orders.map fun o => if o.id == order.id then updated else o

/-! ## Products service (`app/modules/products/service.py`,
`ProductsRepository`) -/

inductive ProductError where
  | notFound
  | slugConflict (slug : String)
  | validationFailed (field : String)
deriving Repr, DecidableEq

structure ProductCreateIn where
  slug : String
  name : String
  description : Option String
  price : Int
  category : String
  quantity : Int
  thumbnail_url : String
  is_active : Bool
  images : List String
deriving Repr, DecidableEq

/-- `ProductUpdateIn` has the same shape as `ProductCreateIn`. -/
abbrev ProductUpdateIn := ProductCreateIn

/-- `ProductsRepository.get_product_by_slug_any` (no visibility filter). -/
def get_product_by_slug_any (products : List Product) (slug : String) :
    Option Product :=
  products.find? (fun p => p.slug == slug)

/-- `ProductsRepository.get_product_by_id` (no visibility filter). -/
def get_product_by_id (products : List Product) (pid : Int) : Option Product :=
  products.find? (fun p => p.id == pid)

/-- Autoincrement primary key for a fresh `products` row. -/
def nextProductId (products : List Product) : Int :=
  (products.map (fun p => p.id)).foldl max 0 + 1

/-- `[u.strip() for u in payload.images if u and u.strip()]`. -/
def normalizeImageUrls (images : List String) : List String :=
  (images.filter fun u => pyTruthy u && pyTruthy (pyStrip u)).map pyStrip

/-- `(payload.category or "uncategorized").strip()`. -/
def normalizeCategory (category : String) : String :=
  pyStrip (if pyTruthy category then category else "uncategorized")

/-- `for idx, url in enumerate(image_urls): ProductImage(url=url,
position=idx)`. -/
def mkImages : List String → Nat → List ProductImage
  | [], _ => []
  | url :: rest, idx => ⟨url, idx⟩ :: mkImages rest (idx + 1)

/-- `ProductsService.create_product` followed by
`ProductsRepository.create_product`: slug trimmed and required, conflict on
any existing row with that slug, free-text fields trimmed — EXCEPT
`description`, which is stored exactly as provided. Image rows are created
positionally from the normalized url list. -/
def create_product (db : DB) (payload : ProductCreateIn) (now : Nat) :
    Except ProductError (DB × Product) :=
  let slug := pyStrip payload.slug
  if !pyTruthy slug then .error (.validationFailed "slug")
  else
    match get_product_by_slug_any db.products slug with
    | some _ => .error (.slugConflict slug)
    | none =>
      let image_urls := normalizeImageUrls payload.images
      let product : Product :=
        { id := nextProductId db.products
          slug := slug
          name := pyStrip payload.name
          description := payload.description
          price := payload.price
          category := normalizeCategory payload.category
          quantity := payload.quantity
          thumbnail_url := pyStrip payload.thumbnail_url
          is_active := payload.is_active
          images := mkImages image_urls 0
          created_at := now
          deleted_at := none }
      .ok ({ products := db.products ++ [product], orders := db.orders }, product)

/-- `ProductsService.update_product` followed by
`ProductsRepository.update_product` / `replace_product_images`: same
normalization as create (again `description` is NOT trimmed), slug-conflict
check only against OTHER products, image list fully replaced
positionally. -/
def update_product (db : DB) (product_id : Int) (payload : ProductUpdateIn) :
    Except ProductError (DB × Product) :=
  match get_product_by_id db.products product_id with
  | none => .error .notFound
  | some product =>
    let slug := pyStrip payload.slug
    if !pyTruthy slug then .error (.validationFailed "slug")
    else
      let conflict :=
        if slug != product.slug then
          match get_product_by_slug_any db.products slug with
          | some existing => existing.id != product.id
          | none => false
        else false
      if conflict then .error (.slugConflict slug)
      else
        let image_urls := normalizeImageUrls payload.images
        let updated : Product :=
          { product with
              slug := slug
              name := pyStrip payload.name
              description := payload.description
              price := payload.price
              category := normalizeCategory payload.category
              quantity := payload.quantity
              thumbnail_url := pyStrip payload.thumbnail_url
              is_active := payload.is_active
              images := mkImages image_urls 0 }
        let products' :=
          db.products.map fun p => if p.id == product.id then updated else p
        .ok ({ products := products', orders := db.orders }, updated)

/-! ## Public product listing (`ProductsService.list_public_products`,
`ProductsRepository.list_public_products`) -/

/-- Filter arguments of the listing endpoints. -/
structure ProductFilters where
  category : Option String := none
  min_price : Option Int := none
  max_price : Option Int := none
  search : Option String := none
deriving Repr, DecidableEq

/-- `ProductsRepository._apply_filters`: `if category:` / `if search:` are
Python truthiness tests, so an empty string disables those filters;
`min_price`/`max_price` use `is not None`. `ILIKE '%pattern%'` is
case-insensitive containment of the trimmed search string. -/
def passesFilters (f : ProductFilters) (p : Product) : Bool :=
  (match f.category with
   | none => true
   | some c => if pyTruthy c then p.category == c else true) &&
  (match f.min_price with
   | none => true
   | some m => m ≤ p.price) &&
  (match f.max_price with
   | none => true
   | some m => p.price ≤ m) &&
  (match f.search with
   | none => true
   | some s =>
     if pyTruthy s then isInfixB (pyLower (pyStrip s)).data (pyLower p.name).data
     else true)

/-- `ORDER BY created_at DESC, id DESC`: `a` is listed no later than `b`. -/
def publicOrder (a b : Product) : Prop :=
  b.created_at < a.created_at ∨ (b.created_at = a.created_at ∧ b.id ≤ a.id)

instance : DecidableRel publicOrder := fun a b => by
  unfold publicOrder; infer_instance

instance : IsTotal Product publicOrder := by
  constructor; intro a b; unfold publicOrder; omega

instance : IsTrans Product publicOrder := by
  constructor; intro a b c; unfold publicOrder; omega

/-- `ProductsService.list_public_products`: clamp the page arguments
(service layer), then filter by public visibility + the optional filters,
order by `created_at DESC, id DESC`, and paginate (repository layer).
Returns the page of items and the total matching count. -/
def list_public_products (products : List Product) (page page_size : Int)
    (f : ProductFilters) : List Product × Nat :=
  let page := if page < 1 then 1 else page
  let page_size := if page_size < 1 then 1 else if page_size > 100 then 100 else page_size
  let visible := products.filter fun p =>
    p.is_active && p.deleted_at == none && passesFilters f p
  let sorted := List.insertionSort publicOrder visible
  let offset := ((page - 1) * page_size).toNat
  ((sorted.drop offset).take page_size.toNat, visible.length)

/-! ## Helper lemmas -/

theorem snapshotItems_line_total (merged : List (Int × Int))
    (fetched : List Product) :
    ∀ it ∈ snapshotItems merged fetched,
      it.line_total = it.unit_price * it.quantity := by
  intro it hit
  simp only [snapshotItems, List.mem_filterMap] at hit
  obtain ⟨pq, _, hmap⟩ := hit
  rcases Option.map_eq_some'.mp hmap with ⟨p, _, rfl⟩
  rfl

/-- Inversion of a successful `create_order`: the checks passed, and the
returned state and order are exactly the committed ones. -/
theorem create_order_ok_inv (db : DB) (payload : CreateOrderIn) (db' : DB)
    (order : Order) (h : create_order db payload = .ok (db', order)) :
    validate_create_payload payload = .ok () ∧
    missingIds db.products payload.items = [] ∧
    shortfallsOf db.products payload.items = [] ∧
    order.items = (snapshotItems (mergeItems payload.items)
      (fetchedProducts db.products payload.items)).map
        (fun it => { it with order_id := nextOrderId db.orders }) ∧
    order.items_subtotal = ((snapshotItems (mergeItems payload.items)
      (fetchedProducts db.products payload.items)).map
        (fun it => it.line_total)).sum ∧
    order.delivery_fee = payload.delivery_fee ∧
    order.total_amount = order.items_subtotal + payload.delivery_fee ∧
    db'.products = decrementStock db.products (mergeItems payload.items) ∧
    db'.orders = db.orders ++ [order] := by
  simp only [create_order] at h
  split at h
  · simp at h
  · split at h
    · simp at h
    · split at h
      · simp at h
      · rename_i hval hmiss hshort
        simp only [Except.ok.injEq, Prod.mk.injEq] at h
        obtain ⟨hdb, horder⟩ := h
        subst hdb horder
        refine ⟨hval, ?_, ?_, rfl, rfl, rfl, rfl, rfl, rfl⟩
        · simpa using hmiss
        · simpa using hshort

deriving instance DecidableEq for Except

/-! ## C3: order totals -/

/-- C3: for every order successfully created by `create_order`, each order
item's `line_total` equals its `unit_price` (the product's price at order
time) times its `quantity`, `items_subtotal` equals the sum of the items'
`line_total`s, and `total_amount` equals `items_subtotal` plus the
payload's `delivery_fee`. -/
theorem C3_order_totals (db : DB) (payload : CreateOrderIn) (db' : DB)
    (order : Order) (h : create_order db payload = .ok (db', order)) :
    (∀ it ∈ order.items, it.line_total = it.unit_price * it.quantity) ∧
    order.items_subtotal = (order.items.map (fun it => it.line_total)).sum ∧
    order.total_amount = order.items_subtotal + payload.delivery_fee := by
  obtain ⟨-, -, -, hitems, hsub, -, htot, -, -⟩ :=
    create_order_ok_inv db payload db' order h
  refine ⟨?_, ?_, htot⟩
  · intro it hit
    rw [hitems] at hit
    simp only [List.mem_map] at hit
    obtain ⟨it0, hit0, rfl⟩ := hit
    exact snapshotItems_line_total _ _ it0 hit0
  · rw [hitems, hsub, List.map_map]
    rfl

/-! Concrete fixtures used by the witnesses (the spec's own scenario:
product `p-1`, price 1000, stock 5; an order of 5 units with delivery
fee 300). -/

def wProdA : Product :=
  { id := 1, slug := "p-1", name := "A", description := none, price := 1000,
    category := "cat", quantity := 5, thumbnail_url := "t", is_active := true,
    images := [], created_at := 10, deleted_at := none }

def wProdB : Product :=
  { id := 2, slug := "p-2", name := "B", description := none, price := 200,
    category := "cat", quantity := 1, thumbnail_url := "t", is_active := true,
    images := [], created_at := 11, deleted_at := none }

def wPayload : CreateOrderIn :=
  { first_name := "Ada", last_name := "L", phone_number := "0555",
    wilaya := "Algiers", baladiya := "Bab", delivery_mode := "HOME",
    address_line := some "street 1", delivery_fee := 300, items := [⟨1, 5⟩] }

def wDB : DB := ⟨[wProdA, wProdB], []⟩

def wOrderItem : OrderItem :=
  { order_id := 1, product_id := 1, product_slug := "p-1", product_name := "A",
    unit_price := 1000, quantity := 5, line_total := 5000 }

def wOrder : Order :=
  { id := 1, status := "PENDING", first_name := "Ada", last_name := "L",
    phone_number := "0555", wilaya := "Algiers", baladiya := "Bab",
    delivery_mode := "HOME", address_line := some "street 1",
    items_subtotal := 5000, delivery_fee := 300, total_amount := 5300,
    sheets_status := "PENDING", sheets_synced_at := none, sheets_error := none,
    items := [wOrderItem] }

def wDBafter : DB := ⟨[{ wProdA with quantity := 0 }, wProdB], [wOrder]⟩

theorem C3_order_totals_witness :
    (∀ it ∈ wOrder.items, it.line_total = it.unit_price * it.quantity) ∧
    wOrder.items_subtotal = (wOrder.items.map (fun it => it.line_total)).sum ∧
    wOrder.total_amount = wOrder.items_subtotal + wPayload.delivery_fee :=
  C3_order_totals wDB wPayload wDBafter wOrder (by decide)

/-! ## C1: insufficient stock collects every shortfall, no mutation -/

/-- C1: for every `create_order` call whose payload passes validation and
whose requested products are all available, if any merged requested
quantity exceeds that product's stock, `create_order` raises
`InsufficientStock` listing every shortfall (product_id, requested,
available) — not just the first — and the failed call leaves the database
(product quantities, orders, order items) unchanged. -/
theorem C1_insufficient_stock (db : DB) (payload : CreateOrderIn)
    (hval : validate_create_payload payload = .ok ())
    (hmiss : missingIds db.products payload.items = [])
    (hshort : shortfallsOf db.products payload.items ≠ []) :
    create_order db payload =
      .error (.insufficientStock (shortfallsOf db.products payload.items)) ∧
    run_create_order db payload = (db, none) ∧
    (∀ pid req, (pid, req) ∈ mergeItems payload.items →
      ∀ p, findProduct (fetchedProducts db.products payload.items) pid = some p →
        p.quantity < req →
        (⟨pid, req, p.quantity⟩ : Shortfall) ∈
          shortfallsOf db.products payload.items) := by
  have hne : (shortfallsOf db.products payload.items).isEmpty = false := by
    simpa using hshort
  have hco : create_order db payload =
      .error (.insufficientStock (shortfallsOf db.products payload.items)) := by
    simp [create_order, hval, hmiss, hne]
  refine ⟨hco, ?_, ?_⟩
  · simp [run_create_order, hco]
  · intro pid req hmem p hfind hlt
    simp only [shortfallsOf, shortfalls, List.mem_filterMap]
    exact ⟨(pid, req), hmem, by simp [hfind, hlt]⟩

theorem C1_insufficient_stock_witness :
    validate_create_payload { wPayload with items := [⟨1, 9⟩, ⟨2, 3⟩] } = .ok () ∧
    missingIds wDB.products [⟨1, 9⟩, ⟨2, 3⟩] = [] ∧
    shortfallsOf wDB.products [⟨1, 9⟩, ⟨2, 3⟩] =
      [⟨1, 9, 5⟩, ⟨2, 3, 1⟩] ∧
    create_order wDB { wPayload with items := [⟨1, 9⟩, ⟨2, 3⟩] } =
      .error (.insufficientStock
        (shortfallsOf wDB.products [⟨1, 9⟩, ⟨2, 3⟩])) ∧
    run_create_order wDB { wPayload with items := [⟨1, 9⟩, ⟨2, 3⟩] } =
      (wDB, none) :=
  ⟨by decide, by decide, by decide,
   (C1_insufficient_stock wDB { wPayload with items := [⟨1, 9⟩, ⟨2, 3⟩] }
     (by decide) (by decide) (by decide)).1,
   (C1_insufficient_stock wDB { wPayload with items := [⟨1, 9⟩, ⟨2, 3⟩] }
     (by decide) (by decide) (by decide)).2.1⟩

/-! ## C6: unavailable products all listed, visibility filter -/

/-- C6: for every `create_order` payload that passes shape validation, only
products that are active and not soft-deleted are fetched for the
requested ids, and if any requested id is not among them, `create_order`
raises `ProductUnavailable` listing ALL such missing ids, leaving the
database unchanged (before any stock check or mutation: no hypothesis on
stock levels is needed). -/
theorem C6_product_unavailable (db : DB) (payload : CreateOrderIn)
    (hval : validate_create_payload payload = .ok ())
    (hmiss : missingIds db.products payload.items ≠ []) :
    create_order db payload =
      .error (.productUnavailable (missingIds db.products payload.items)) ∧
    run_create_order db payload = (db, none) ∧
    (∀ p ∈ fetchedProducts db.products payload.items,
      p.is_active = true ∧ p.deleted_at = none) ∧
    (∀ pid ∈ requestedIds payload.items,
      (∀ p ∈ db.products, p.id = pid →
        ¬(p.is_active = true ∧ p.deleted_at = none)) →
      pid ∈ missingIds db.products payload.items) := by
  have hne : (missingIds db.products payload.items).isEmpty = false := by
    simpa using hmiss
  have hco : create_order db payload =
      .error (.productUnavailable (missingIds db.products payload.items)) := by
    simp [create_order, hval, hne]
  refine ⟨hco, by simp [run_create_order, hco], ?_, ?_⟩
  · intro p hp
    simp only [fetchedProducts, get_active_products_by_ids] at hp
    split at hp
    · simp at hp
    · rw [List.mem_filter] at hp
      obtain ⟨-, hcond⟩ := hp
      simp only [Bool.and_eq_true, beq_iff_eq] at hcond
      exact ⟨hcond.1.2, hcond.2⟩
  · intro pid hpid hnone
    simp only [missingIds, List.mem_filter]
    refine ⟨hpid, ?_⟩
    cases hfp : findProduct (fetchedProducts db.products payload.items) pid with
    | none => rfl
    | some p =>
      exfalso
      have hmem := List.mem_of_find?_eq_some hfp
      have hpred := List.find?_some hfp
      simp only [beq_iff_eq] at hpred
      simp only [fetchedProducts, get_active_products_by_ids] at hmem
      split at hmem
      · simp at hmem
      · rw [List.mem_filter] at hmem
        obtain ⟨hmemdb, hcond⟩ := hmem
        simp only [Bool.and_eq_true, beq_iff_eq] at hcond
        exact hnone p hmemdb hpred ⟨hcond.1.2, hcond.2⟩

theorem C6_product_unavailable_witness :
    validate_create_payload
      { wPayload with items := [⟨1, 2⟩, ⟨7, 1⟩, ⟨9, 1⟩] } = .ok () ∧
    missingIds wDB.products [⟨1, 2⟩, ⟨7, 1⟩, ⟨9, 1⟩] = [7, 9] ∧
    create_order wDB { wPayload with items := [⟨1, 2⟩, ⟨7, 1⟩, ⟨9, 1⟩] } =
      .error (.productUnavailable
        (missingIds wDB.products [⟨1, 2⟩, ⟨7, 1⟩, ⟨9, 1⟩])) ∧
    run_create_order wDB { wPayload with items := [⟨1, 2⟩, ⟨7, 1⟩, ⟨9, 1⟩] } =
      (wDB, none) :=
  ⟨by decide, by decide,
   (C6_product_unavailable wDB { wPayload with items := [⟨1, 2⟩, ⟨7, 1⟩, ⟨9, 1⟩] }
     (by decide) (by decide)).1,
   (C6_product_unavailable wDB { wPayload with items := [⟨1, 2⟩, ⟨7, 1⟩, ⟨9, 1⟩] }
     (by decide) (by decide)).2.1⟩

/-! ## C10: stock decrement never drives a quantity below zero -/

/-- C10: `create_order` preserves non-negative stock. On a state where every
product quantity is ≥ 0 and ids are unique (primary key), a successful call
maps each purchased (active, non-deleted, requested) product to its prior
quantity minus the merged requested quantity, leaves every other product
row unchanged, the stock check guarantees requested ≤ available for every
purchased row, and every quantity in the resulting state is still ≥ 0. -/
theorem C10_stock_invariant (db db' : DB) (payload : CreateOrderIn)
    (order : Order)
    (hnodup : (db.products.map (fun p => p.id)).Nodup)
    (hpos : ∀ p ∈ db.products, 0 ≤ p.quantity)
    (hok : create_order db payload = .ok (db', order)) :
    db'.products = db.products.map (fun p =>
      if p.is_active && p.deleted_at == none then
        match (mergeItems payload.items).find? (fun pq => pq.1 == p.id) with
        | some pq => { p with quantity := p.quantity - pq.2 }
        | none => p
      else p) ∧
    (∀ p ∈ db.products, ∀ pq,
      (mergeItems payload.items).find? (fun pq2 => pq2.1 == p.id) = some pq →
      p.is_active = true → p.deleted_at = none → pq.2 ≤ p.quantity) ∧
    (∀ p' ∈ db'.products, 0 ≤ p'.quantity) := by
  obtain ⟨-, hmiss, hshort, -, -, -, -, hprod, -⟩ :=
    create_order_ok_inv db payload db' order hok
  have key : ∀ p ∈ db.products, ∀ pq,
      (mergeItems payload.items).find? (fun pq2 => pq2.1 == p.id) = some pq →
      p.is_active = true → p.deleted_at = none → pq.2 ≤ p.quantity := by
    intro p hp pq hfind hact hdel
    have hpqmem : pq ∈ mergeItems payload.items :=
      List.mem_of_find?_eq_some hfind
    have hpqid : pq.1 = p.id := by
      have := List.find?_some hfind
      simpa using this
    have hidmem : p.id ∈ requestedIds payload.items := by
      simp only [requestedIds]
      exact hpqid ▸ List.mem_map_of_mem _ hpqmem
    have hids_ne : (requestedIds payload.items).isEmpty = false :=
      List.isEmpty_eq_false.mpr (List.ne_nil_of_mem hidmem)
    have hpfetched : p ∈ fetchedProducts db.products payload.items := by
      unfold fetchedProducts get_active_products_by_ids
      rw [hids_ne, if_neg (by simp : ¬(false = true)), List.mem_filter]
      refine ⟨hp, ?_⟩
      simp [hact, hdel, List.contains, hidmem]
    obtain ⟨p2, hfp2⟩ :
        ∃ p2, findProduct (fetchedProducts db.products payload.items) p.id
          = some p2 := by
      cases hfp : findProduct (fetchedProducts db.products payload.items) p.id with
      | none =>
        exfalso
        have := List.find?_eq_none.mp hfp p hpfetched
        simp at this
      | some p2 => exact ⟨p2, rfl⟩
    have hp2mem : p2 ∈ fetchedProducts db.products payload.items :=
      List.mem_of_find?_eq_some hfp2
    have hp2id : p2.id = p.id := by
      have := List.find?_some hfp2
      simpa using this
    have hp2db : p2 ∈ db.products := by
      have := hp2mem
      simp only [fetchedProducts, get_active_products_by_ids] at this
      split at this
      · simp at this
      · exact (List.mem_filter.mp this).1
    have hp2eq : p2 = p :=
      List.inj_on_of_nodup_map hnodup hp2db hp hp2id
    subst hp2eq
    have hnone := (List.filterMap_eq_nil_iff.mp hshort) pq hpqmem
    rw [hpqid, hfp2] at hnone
    by_contra hgt
    have hlt : p2.quantity < pq.2 := by omega
    simp [hlt] at hnone
  refine ⟨by rw [hprod]; rfl, key, ?_⟩
  intro p' hp'
  rw [hprod] at hp'
  simp only [decrementStock, List.mem_map] at hp'
  obtain ⟨p, hp, rfl⟩ := hp'
  by_cases hflag : (p.is_active && p.deleted_at == none) = true
  · rw [if_pos hflag]
    cases hfind : (mergeItems payload.items).find? (fun pq => pq.1 == p.id) with
    | none => exact hpos p hp
    | some pq =>
      simp only [Bool.and_eq_true, beq_iff_eq] at hflag
      have := key p hp pq hfind hflag.1 hflag.2
      simp only []
      omega
  · rw [if_neg hflag]
    exact hpos p hp

theorem C10_stock_invariant_witness :
    (List.map (fun p => p.id) wDB.products).Nodup ∧
    (∀ p ∈ wDB.products, 0 ≤ p.quantity) ∧
    (wDBafter.products = wDB.products.map (fun p =>
      if p.is_active && p.deleted_at == none then
        match (mergeItems wPayload.items).find? (fun pq => pq.1 == p.id) with
        | some pq => { p with quantity := p.quantity - pq.2 }
        | none => p
      else p) ∧
    (∀ p ∈ wDB.products, ∀ pq,
      (mergeItems wPayload.items).find? (fun pq2 => pq2.1 == p.id) = some pq →
      p.is_active = true → p.deleted_at = none → pq.2 ≤ p.quantity) ∧
    (∀ p' ∈ wDBafter.products, 0 ≤ p'.quantity)) :=
  ⟨by decide, by decide,
   C10_stock_invariant wDB wDBafter wPayload wOrder (by decide) (by decide)
     (by decide)⟩

/-! ## C5: duplicate items are merged before any further processing -/

theorem validateItems_ok (l : List CreateOrderItemIn)
    (hv : ∀ it ∈ l, 0 < it.product_id ∧ 0 < it.quantity) :
    validateItems l = .ok () := by
  induction l with
  | nil => rfl
  | cons it rest ih =>
    have hit := hv it (by simp)
    simp only [validateItems]
    rw [if_neg (by omega), if_neg (by omega)]
    exact ih fun x hx => hv x (by simp [hx])

theorem addQty_ne_nil (acc : List (Int × Int)) (pid qty : Int) :
    addQty acc pid qty ≠ [] := by
  cases acc with
  | nil => simp [addQty]
  | cons h t =>
    obtain ⟨p, q⟩ := h
    simp only [addQty]
    split <;> simp

theorem foldl_addQty_ne_nil (l : List CreateOrderItemIn)
    (acc : List (Int × Int)) (hacc : acc ≠ []) :
    l.foldl (fun acc it => addQty acc it.product_id it.quantity) acc ≠ [] := by
  induction l generalizing acc with
  | nil => simpa
  | cons it rest ih =>
    simp only [List.foldl_cons]
    exact ih _ (addQty_ne_nil _ _ _)

theorem mergeItems_ne_nil (l : List CreateOrderItemIn) (h : l ≠ []) :
    mergeItems l ≠ [] := by
  cases l with
  | nil => exact absurd rfl h
  | cons it rest =>
    simp only [mergeItems, List.foldl_cons]
    exact foldl_addQty_ne_nil rest _ (addQty_ne_nil _ _ _)

/-- C5: `create_order` merges items sharing a `product_id` by summing
quantities before validation against stock, snapshotting, or decrement:
two payloads identical except for their item lists behave identically
whenever the merged requests coincide (both lists non-empty with positive
ids and quantities). In particular `[(A, 2), (A, 3)]` behaves exactly like
`[(A, 5)]`. -/
theorem C5_duplicates_merged (db : DB) (base : CreateOrderIn)
    (l1 l2 : List CreateOrderItemIn)
    (h1 : l1 ≠ [])
    (hv1 : ∀ it ∈ l1, 0 < it.product_id ∧ 0 < it.quantity)
    (hv2 : ∀ it ∈ l2, 0 < it.product_id ∧ 0 < it.quantity)
    (hm : mergeItems l1 = mergeItems l2) :
    create_order db { base with items := l1 } =
      create_order db { base with items := l2 } := by
  have h2 : l2 ≠ [] := by
    intro h
    subst h
    exact mergeItems_ne_nil l1 h1 (by simpa using hm)
  have he1 : l1.isEmpty = false := List.isEmpty_eq_false.mpr h1
  have he2 : l2.isEmpty = false := List.isEmpty_eq_false.mpr h2
  have hvi1 : validateItems l1 = .ok () := validateItems_ok l1 hv1
  have hvi2 : validateItems l2 = .ok () := validateItems_ok l2 hv2
  have hval : validate_create_payload { base with items := l1 } =
      validate_create_payload { base with items := l2 } := by
    simp only [validate_create_payload, requiredStrFields, he1, he2, hvi1, hvi2]
  simp only [create_order, hval, requestedIds, fetchedProducts, missingIds,
    shortfallsOf, findProduct, get_active_products_by_ids, shortfalls,
    snapshotItems, decrementStock, hm]

theorem C5_duplicates_merged_witness :
    ([⟨1, 2⟩, ⟨1, 3⟩] : List CreateOrderItemIn) ≠ [] ∧
    mergeItems [⟨1, 2⟩, ⟨1, 3⟩] = mergeItems [⟨1, 5⟩] ∧
    create_order wDB { wPayload with items := [⟨1, 2⟩, ⟨1, 3⟩] } =
      create_order wDB { wPayload with items := [⟨1, 5⟩] } ∧
    create_order wDB { wPayload with items := [⟨1, 2⟩, ⟨1, 3⟩] } =
      .ok (wDBafter, wOrder) :=
  ⟨by decide, by decide,
   C5_duplicates_merged wDB wPayload [⟨1, 2⟩, ⟨1, 3⟩] [⟨1, 5⟩]
     (by decide) (by decide) (by decide) (by decide),
   by decide⟩

/-! ## Status machine helpers -/

theorem status_norm (s : String) (hs : s ∈ ALLOWED_ORDER_STATUSES) :
    pyUpper (pyStrip s) = s := by
  simp only [ALLOWED_ORDER_STATUSES, List.mem_cons, List.not_mem_nil,
    or_false] at hs
  rcases hs with rfl | rfl | rfl | rfl <;> decide

theorem status_contains (s : String) (hs : s ∈ ALLOWED_ORDER_STATUSES) :
    ALLOWED_ORDER_STATUSES.contains s = true := by
  simp [List.contains, hs]

/-- Closed form of `set_order_status` once the order exists, the requested
status is one of the four legal values, and the stored status is already
normalized. -/
theorem set_order_status_eq (db : DB) (order_id : Int) (o : Order)
    (ns : String)
    (ho : findOrder db.orders order_id = some o)
    (hns : ns ∈ ALLOWED_ORDER_STATUSES)
    (hos : pyUpper (pyStrip o.status) = o.status) :
    set_order_status db order_id ns =
      if o.status == ns then .ok (db, o)
      else if !(allowedNext o.status).contains ns then
        .error (.invalidTransition o.status ns)
      else
        .ok ({ products :=
                 if ns == "CANCELED" then
                   restore_stock_for_order db.products o.items
                 else db.products,
               orders := db.orders.map fun x =>
                 if x.id == o.id then { x with status := ns } else x },
             { o with status := ns }) := by
  have hnorm := status_norm ns hns
  have hcont := status_contains ns hns
  simp only [set_order_status, hnorm, hcont, Bool.not_true, Bool.false_eq_true,
    if_false, ho, hos]

/-! ## C2: the status transition table -/

/-- C2: for every existing order whose stored status is one of the four
legal values and every requested status among them, `set_order_status`
succeeds exactly when the request equals the current status (no-op) or
(current, requested) is an edge of PENDING→{CONFIRMED, CANCELED},
CONFIRMED→{DELIVERED, CANCELED}, DELIVERED→{}, CANCELED→{}; every other
pair raises `InvalidTransition` reporting both endpoints. -/
theorem C2_status_transitions (db : DB) (order_id : Int) (o : Order)
    (ns : String)
    (ho : findOrder db.orders order_id = some o)
    (hos : o.status ∈ ALLOWED_ORDER_STATUSES)
    (hns : ns ∈ ALLOWED_ORDER_STATUSES) :
    ((∃ r, set_order_status db order_id ns = .ok r) ↔
      (ns = o.status ∨ ns ∈ allowedNext o.status)) ∧
    (¬(ns = o.status ∨ ns ∈ allowedNext o.status) →
      set_order_status db order_id ns =
        .error (.invalidTransition o.status ns)) := by
  have heq := set_order_status_eq db order_id o ns ho hns (status_norm _ hos)
  by_cases h1 : o.status = ns
  · rw [heq, if_pos (by simp [h1])]
    exact ⟨iff_of_true ⟨_, rfl⟩ (Or.inl h1.symm),
      fun hcon => absurd (Or.inl h1.symm) hcon⟩
  · by_cases h2 : ns ∈ allowedNext o.status
    · have hc : (allowedNext o.status).contains ns = true := by
        simp [List.contains, h2]
      rw [heq, if_neg (by simp [h1]), if_neg (by rw [hc]; decide)]
      exact ⟨iff_of_true ⟨_, rfl⟩ (Or.inr h2),
        fun hcon => absurd (Or.inr h2) hcon⟩
    · have hc : (allowedNext o.status).contains ns = false := by
        cases hcc : (allowedNext o.status).contains ns with
        | false => rfl
        | true =>
          exact absurd (List.elem_iff.mp (by simpa [List.contains] using hcc)) h2
      rw [heq, if_neg (by simp [h1]), if_pos (by rw [hc]; decide)]
      refine ⟨?_, fun _ => rfl⟩
      constructor
      · rintro ⟨r, hr⟩
        simp at hr
      · rintro (h | h)
        · exact absurd h.symm h1
        · exact absurd h h2

theorem C2_status_transitions_witness :
    findOrder wDBafter.orders 1 = some wOrder ∧
    ((∃ r, set_order_status wDBafter 1 "CONFIRMED" = .ok r) ↔
      ("CONFIRMED" = wOrder.status ∨
        "CONFIRMED" ∈ allowedNext wOrder.status)) ∧
    (¬("CONFIRMED" = wOrder.status ∨
        "CONFIRMED" ∈ allowedNext wOrder.status) →
      set_order_status wDBafter 1 "CONFIRMED" =
        .error (.invalidTransition wOrder.status "CONFIRMED")) :=
  ⟨by decide,
   (C2_status_transitions wDBafter 1 wOrder "CONFIRMED" (by decide) (by decide)
     (by decide)).1,
   (C2_status_transitions wDBafter 1 wOrder "CONFIRMED" (by decide) (by decide)
     (by decide)).2⟩

/-! ## C4: transition into CANCELED restores stock -/

/-- Closed form of the stock-restore loop: every product row gains the
summed quantity of the order items that reference it — with no
active/soft-delete condition, so inactive or soft-deleted rows are
restored too; unreferenced rows are unchanged (they gain an empty sum). -/
theorem restore_stock_eq_map (products : List Product) (items : List OrderItem) :
    restore_stock_for_order products items =
      products.map (fun p =>
        { p with quantity := p.quantity +
            ((items.filter fun it => it.product_id == p.id).map
              (fun it => it.quantity)).sum }) := by
  induction items generalizing products with
  | nil =>
    simp only [restore_stock_for_order, List.foldl_nil, List.filter_nil,
      List.map_nil, List.sum_nil, add_zero]
    exact (List.map_id products).symm
  | cons it rest ih =>
    simp only [restore_stock_for_order, List.foldl_cons] at ih ⊢
    rw [ih, List.map_map]
    apply List.map_congr_left
    intro p _
    by_cases hid : p.id = it.product_id
    · have hstep : (if (p.id == it.product_id) = true then
          { p with quantity := p.quantity + it.quantity } else p) =
            { p with quantity := p.quantity + it.quantity } :=
        if_pos (by simp [hid])
      simp only [Function.comp, hstep, List.filter_cons,
        show (it.product_id == p.id) = true by simp [hid], if_true,
        List.map_cons, List.sum_cons]
      simp [Product.mk.injEq, add_assoc]
    · have hstep : (if (p.id == it.product_id) = true then
          { p with quantity := p.quantity + it.quantity } else p) = p :=
        if_neg (by simp [hid])
      simp only [Function.comp, hstep, List.filter_cons,
        show (it.product_id == p.id) = false by
          simp only [beq_eq_false_iff_ne]
          exact fun h => hid h.symm]
      simp

/-- C4: for every order whose status legally transitions into CANCELED
(current status PENDING or CONFIRMED), stock is restored for every order
item — each product row gains its item's quantity, with the lookup NOT
filtered by active/soft-delete — and the order's status becomes CANCELED,
both effects landing in the same committed state. -/
theorem C4_cancel_restores_stock (db : DB) (order_id : Int) (o : Order)
    (ho : findOrder db.orders order_id = some o)
    (hold : o.status = "PENDING" ∨ o.status = "CONFIRMED") :
    set_order_status db order_id "CANCELED" =
      .ok ({ products := restore_stock_for_order db.products o.items,
             orders := db.orders.map fun x =>
               if x.id == o.id then { x with status := "CANCELED" } else x },
           { o with status := "CANCELED" }) ∧
    restore_stock_for_order db.products o.items =
      db.products.map (fun p =>
        { p with quantity := p.quantity +
            ((o.items.filter fun it => it.product_id == p.id).map
              (fun it => it.quantity)).sum }) := by
  have hns : "CANCELED" ∈ ALLOWED_ORDER_STATUSES := by decide
  have hos : pyUpper (pyStrip o.status) = o.status := by
    rcases hold with h | h <;> rw [h] <;> decide
  have heq := set_order_status_eq db order_id o "CANCELED" ho hns hos
  refine ⟨?_, restore_stock_eq_map db.products o.items⟩
  rcases hold with h | h <;>
    rw [heq, if_neg (by rw [h]; decide), if_neg (by rw [h]; decide)] <;>
    simp

/-- The spec's example: a CONFIRMED order with items [(A, 2), (B, 1)]. -/
def wOrderC4 : Order :=
  { id := 1, status := "CONFIRMED", first_name := "Ada", last_name := "L",
    phone_number := "0555", wilaya := "Algiers", baladiya := "Bab",
    delivery_mode := "HOME", address_line := none, items_subtotal := 2200,
    delivery_fee := 300, total_amount := 2500, sheets_status := "PENDING",
    sheets_synced_at := none, sheets_error := none,
    items := [{ order_id := 1, product_id := 1, product_slug := "p-1",
                product_name := "A", unit_price := 1000, quantity := 2,
                line_total := 2000 },
              { order_id := 1, product_id := 2, product_slug := "p-2",
                product_name := "B", unit_price := 200, quantity := 1,
                line_total := 200 }] }

def wDBC4 : DB := ⟨[wProdA, wProdB], [wOrderC4]⟩

theorem C4_cancel_restores_stock_witness :
    findOrder wDBC4.orders 1 = some wOrderC4 ∧
    (set_order_status wDBC4 1 "CANCELED" =
      .ok ({ products := restore_stock_for_order wDBC4.products wOrderC4.items,
             orders := wDBC4.orders.map fun x =>
               if x.id == wOrderC4.id then { x with status := "CANCELED" }
               else x },
           { wOrderC4 with status := "CANCELED" }) ∧
    restore_stock_for_order wDBC4.products wOrderC4.items =
      wDBC4.products.map (fun p =>
        { p with quantity := p.quantity +
            ((wOrderC4.items.filter fun it => it.product_id == p.id).map
              (fun it => it.quantity)).sum })) ∧
    restore_stock_for_order wDBC4.products wOrderC4.items =
      [{ wProdA with quantity := 7 }, { wProdB with quantity := 2 }] :=
  ⟨by decide,
   C4_cancel_restores_stock wDBC4 1 wOrderC4 (by decide) (by decide),
   by decide⟩

/-! ## C7: sheets sync is best-effort and truncates errors -/

theorem pyTake_length_le (s : String) (n : Nat) : (pyTake s n).length ≤ n := by
  have h : (pyTake s n).length = (s.data.take n).length := rfl
  rw [h]
  exact List.length_take_le _ _

/-- C7: `try_sync_order_to_sheets` is a total state transformer (no raise
ever reaches its caller — every failure of the client construction or of
the append is caught): on a successful append the order's `sheets_status`
becomes SUCCESS; on any failure it becomes FAILED with an error message of
at most 500 characters. -/
theorem C7_sheets_sync (orders : List Order) (order_id : Int)
    (outcome : SheetsOutcome) (now : Nat) (o : Order)
    (ho : findOrder orders order_id = some o) :
    (outcome = .ok →
      try_sync_order_to_sheets orders order_id outcome now =
        orders.map fun x =>
          if x.id == o.id then
            { o with sheets_status := "SUCCESS", sheets_synced_at := some now,
                     sheets_error := none }
          else x) ∧
    (∀ msg, (outcome = .clientError msg ∨ outcome = .appendError msg) →
      try_sync_order_to_sheets orders order_id outcome now =
        orders.map (fun x =>
          if x.id == o.id then
            { o with sheets_status := "FAILED", sheets_synced_at := none,
                     sheets_error := some (pyTake
                       (if pyTruthy msg then msg else "Unknown sheets error")
                       500) }
          else x) ∧
      (pyTake (if pyTruthy msg then msg else "Unknown sheets error")
        500).length ≤ 500) := by
  constructor
  · rintro rfl
    simp [try_sync_order_to_sheets, ho, set_sheets_sync_result]
  · rintro msg (rfl | rfl) <;>
      exact ⟨by simp [try_sync_order_to_sheets, ho, set_sheets_sync_result],
        pyTake_length_le _ 500⟩

theorem C7_sheets_sync_witness :
    findOrder wDBC4.orders 1 = some wOrderC4 ∧
    (try_sync_order_to_sheets wDBC4.orders 1 (.appendError "boom") 99 =
      wDBC4.orders.map (fun x =>
        if x.id == wOrderC4.id then
          { wOrderC4 with sheets_status := "FAILED", sheets_synced_at := none,
                          sheets_error := some (pyTake
                            (if pyTruthy "boom" then "boom"
                             else "Unknown sheets error") 500) }
        else x) ∧
      (pyTake (if pyTruthy "boom" then "boom" else "Unknown sheets error")
        500).length ≤ 500) ∧
    (try_sync_order_to_sheets wDBC4.orders 1 .ok 99 =
      wDBC4.orders.map fun x =>
        if x.id == wOrderC4.id then
          { wOrderC4 with sheets_status := "SUCCESS",
                          sheets_synced_at := some 99, sheets_error := none }
        else x) :=
  ⟨by decide,
   (C7_sheets_sync wDBC4.orders 1 (.appendError "boom") 99 wOrderC4
     (by decide)).2 "boom" (Or.inr rfl),
   (C7_sheets_sync wDBC4.orders 1 .ok 99 wOrderC4 (by decide)).1 rfl⟩

/-! ## C8: public listing — visibility, ordering, clamping -/

/-- C8: every product returned by the public listing is active and not
soft-deleted; the page is ordered by `created_at` descending with `id`
descending as tiebreak; and the effective pagination is clamped — the call
behaves exactly as with `page ≥ 1` and `1 ≤ page_size ≤ 100` (`page < 1`
becomes 1, `page_size < 1` becomes 1, `page_size > 100` becomes 100). -/
theorem C8_public_listing (products : List Product) (page page_size : Int)
    (f : ProductFilters) :
    (∀ p ∈ (list_public_products products page page_size f).1,
      p.is_active = true ∧ p.deleted_at = none) ∧
    List.Sorted publicOrder (list_public_products products page page_size f).1 ∧
    list_public_products products page page_size f =
      list_public_products products (max 1 page) (min 100 (max 1 page_size)) f := by
  refine ⟨?_, ?_, ?_⟩
  · intro p hp
    simp only [list_public_products] at hp
    have h1 := List.Sublist.mem hp (List.take_sublist _ _)
    have h2 := List.Sublist.mem h1 (List.drop_sublist _ _)
    have h3 := (List.perm_insertionSort publicOrder _).mem_iff.mp h2
    have h4 := (List.mem_filter.mp h3).2
    simp only [Bool.and_eq_true, beq_iff_eq] at h4
    exact ⟨h4.1.1, h4.1.2⟩
  · simp only [list_public_products]
    exact List.Pairwise.sublist
      (List.Sublist.trans (List.take_sublist _ _) (List.drop_sublist _ _))
      (List.sorted_insertionSort publicOrder _)
  · have hp1 : (if (max 1 page) < 1 then (1 : Int) else max 1 page) =
        (if page < 1 then 1 else page) := by
      split_ifs <;> omega
    have hs1 : (if (min 100 (max 1 page_size)) < 1 then (1 : Int)
          else if (min 100 (max 1 page_size)) > 100 then 100
          else min 100 (max 1 page_size)) =
        (if page_size < 1 then 1
          else if page_size > 100 then 100 else page_size) := by
      split_ifs <;> omega
    simp only [list_public_products, hp1, hs1]

/-! ## C9: normalization of free-text fields on create/update -/

theorem mkImages_map_url (urls : List String) (idx : Nat) :
    (mkImages urls idx).map (fun i => i.url) = urls := by
  induction urls generalizing idx with
  | nil => rfl
  | cons u rest ih => simp [mkImages, ih]

/-- The create payload used to exhibit the untrimmed `description`. -/
def wPC9 : ProductCreateIn :=
  { slug := " p-9 ", name := " Nine ", description := some " spaced ",
    price := 10, category := " c ", quantity := 1,
    thumbnail_url := " thumb ", is_active := true,
    images := [" u1 ", "", "u2", "  "] }

/-- C9 counterexample: a successful `create_product` stores the
`description` exactly as provided — `" spaced "`, which is not equal to its
trimmed form — so "all free-text fields ... are normalized by trimming"
fails for `description`. -/
theorem C9_counterexample :
    (create_product ⟨[], []⟩ wPC9 0).toOption.map (fun r => r.2.description) =
      some (some " spaced ") ∧
    pyStrip " spaced " ≠ " spaced " :=
  ⟨by decide, by decide⟩

/-- C9 (amended): for every successful `create_product` and
`update_product` call, the stored `slug`, `name`, `category`,
`thumbnail_url` and each image URL are trimmed of leading/trailing
whitespace (category after the `or "uncategorized"` default, image lists
after dropping blank entries) — but `description` is stored exactly as
provided, untrimmed. -/
theorem C9_amended_normalization (db1 db2 : DB) (pc : ProductCreateIn)
    (pu : ProductUpdateIn) (pid : Int) (now : Nat) (r1 r2 : DB × Product)
    (hc : create_product db1 pc now = .ok r1)
    (hu : update_product db2 pid pu = .ok r2) :
    (r1.2.slug = pyStrip pc.slug ∧
     r1.2.name = pyStrip pc.name ∧
     r1.2.category =
       pyStrip (if pyTruthy pc.category then pc.category else "uncategorized") ∧
     r1.2.thumbnail_url = pyStrip pc.thumbnail_url ∧
     r1.2.description = pc.description ∧
     r1.2.images.map (fun i => i.url) =
       (pc.images.filter fun u => pyTruthy u && pyTruthy (pyStrip u)).map
         pyStrip) ∧
    (r2.2.slug = pyStrip pu.slug ∧
     r2.2.name = pyStrip pu.name ∧
     r2.2.category =
       pyStrip (if pyTruthy pu.category then pu.category else "uncategorized") ∧
     r2.2.thumbnail_url = pyStrip pu.thumbnail_url ∧
     r2.2.description = pu.description ∧
     r2.2.images.map (fun i => i.url) =
       (pu.images.filter fun u => pyTruthy u && pyTruthy (pyStrip u)).map
         pyStrip) := by
  constructor
  · simp only [create_product] at hc
    split at hc
    · simp at hc
    · split at hc
      · simp at hc
      · simp only [Except.ok.injEq] at hc
        subst hc
        refine ⟨rfl, rfl, rfl, rfl, rfl, ?_⟩
        exact mkImages_map_url _ 0
  · simp only [update_product] at hu
    split at hu
    · simp at hu
    · split at hu
      · simp at hu
      · split at hu
        · split at hu
          · simp at hu
          · simp only [Except.ok.injEq] at hu
            subst hu
            exact ⟨rfl, rfl, rfl, rfl, rfl, mkImages_map_url _ 0⟩
        · simp only [Bool.false_eq_true, if_false, Except.ok.injEq] at hu
          subst hu
          exact ⟨rfl, rfl, rfl, rfl, rfl, mkImages_map_url _ 0⟩

/-- The stored row for `wPC9` (create on an empty store; update of product
id 1). -/
def wProdC9 : Product :=
  { id := 1, slug := "p-9", name := "Nine", description := some " spaced ",
    price := 10, category := "c", quantity := 1, thumbnail_url := "thumb",
    is_active := true,
    images := [{ url := "u1", position := 0 }, { url := "u2", position := 1 }],
    created_at := 0, deleted_at := none }

theorem C9_amended_normalization_witness :
    (wProdC9.slug = pyStrip wPC9.slug ∧
     wProdC9.name = pyStrip wPC9.name ∧
     wProdC9.category =
       pyStrip (if pyTruthy wPC9.category then wPC9.category
                else "uncategorized") ∧
     wProdC9.thumbnail_url = pyStrip wPC9.thumbnail_url ∧
     wProdC9.description = wPC9.description ∧
     wProdC9.images.map (fun (i : ProductImage) => i.url) =
       (wPC9.images.filter fun u => pyTruthy u && pyTruthy (pyStrip u)).map
         pyStrip) ∧
    ({ wProdC9 with created_at := 10 }.slug = pyStrip wPC9.slug ∧
     { wProdC9 with created_at := 10 }.name = pyStrip wPC9.name ∧
     { wProdC9 with created_at := 10 }.category =
       pyStrip (if pyTruthy wPC9.category then wPC9.category
                else "uncategorized") ∧
     { wProdC9 with created_at := 10 }.thumbnail_url =
       pyStrip wPC9.thumbnail_url ∧
     { wProdC9 with created_at := 10 }.description = wPC9.description ∧
     { wProdC9 with created_at := 10 }.images.map (fun (i : ProductImage) => i.url) =
       (wPC9.images.filter fun u => pyTruthy u && pyTruthy (pyStrip u)).map
         pyStrip) :=
  C9_amended_normalization ⟨[], []⟩ ⟨[wProdA], []⟩ wPC9 wPC9 1 0
    (⟨[wProdC9], []⟩, wProdC9)
    (⟨[{ wProdC9 with created_at := 10 }], []⟩,
      { wProdC9 with created_at := 10 })
    (by decide) (by decide)
